import Mathlib

/-!
# Verification of the book-management CRUD backend

Shallow embedding of the route handlers in `app/api/endpoints/books.py`.
The relational store is modelled as explicit state (`DB`): one list per
table plus a counter for system-assigned book ids and the contents of the
cover-image storage sink.  A handler is a function from the state (and the
request data) to `Except ApiError α`: raising `HTTPException` aborts the
handler before any `commit`, so the per-request session is discarded and
the stored state is unchanged — an `error` result therefore carries no new
state.
-/

/-- Row of the `authors` table (fields as used by `books.py` and described
in the data model: id, name, optional bio). -/
structure Author where
  id : Int
  name : String
  bio : Option String
deriving DecidableEq

/-- Row of the `categories` table (id, name, optional description). -/
structure Category where
  id : Int
  name : String
  description : Option String
deriving DecidableEq

/-- Row of the `books` table.  `cover_image` is nullable; `Modelled from
the spec:` the ORM model file is not among the sources, so the column
default `cover_image = NULL` for rows inserted without it follows the
spec's "cover_image (optional text URL path, set only via upload)". -/
structure Book where
  id : Int
  title : String
  description : Option String
  published_year : Option Int
  author_id : Int
  category_id : Int
  cover_image : Option String
deriving DecidableEq

/-- Request body of `POST /books/`.  Fields are exactly those read from
`book_in` by `create_book` (the schema file itself is not among the
sources; `Modelled from the spec:` create shape with required
title/author_id/category_id and optional description/published_year). -/
structure BookCreate where
  title : String
  description : Option String
  published_year : Option Int
  author_id : Int
  category_id : Int
deriving DecidableEq

/-- Request body of `PUT /books/{id}`.  All fields optional ("update"
shapes have every field optional per the spec); exactly the fields read
from `book_up` by `update_book`. -/
structure BookUpdate where
  title : Option String
  description : Option String
  published_year : Option Int
  author_id : Option Int
  category_id : Option Int
deriving DecidableEq

/-- A multipart file upload as the handler sees it: declared content type,
client-supplied filename, and the raw bytes returned by `file.read()`. -/
structure UploadFile where
  filename : String
  content_type : String
  content : List UInt8
deriving DecidableEq

/-- The stored state: the three tables, the next system-assigned book id,
and the files in the cover storage sink `app/static/covers`
(filename, bytes). -/
structure DB where
  authors : List Author
  categories : List Category
  books : List Book
  nextBookId : Int
  covers : List (String × List UInt8)
deriving DecidableEq

/-- `HTTPException` as raised by the handlers: a status class plus the
human-readable detail string. -/
inductive ApiError where
  | notFound (detail : String)
  | badRequest (detail : String)
deriving DecidableEq

deriving instance DecidableEq for Except

/-- HTTP status code of an error (`status.HTTP_404_NOT_FOUND`,
`status.HTTP_400_BAD_REQUEST`). -/
def ApiError.statusCode : ApiError → Nat
  | .notFound _ => 404
  | .badRequest _ => 400

/-- Success status of `POST /books/` (`status_code=status.HTTP_201_CREATED`
on the route decorator). -/
def create_book_status_code : Nat := 201

/-- Success status of `DELETE /books/{book_id}`
(`status_code=status.HTTP_204_NO_CONTENT`; the handler returns no body). -/
def delete_book_status_code : Nat := 204

/-- Default success status of the other book routes (FastAPI default). -/
def ok_status_code : Nat := 200

/-! ## SQL `ILIKE` pattern matching

`list_books` filters with `title.ilike(f"%{keyword}%")` (and likewise for
`description`).  SQL `LIKE`/`ILIKE` treats `%` in the pattern as "any
sequence of characters" and `_` as "any single character"; `ILIKE`
compares case-insensitively, which we model by case-folding both sides
with `Char.toLower`.  The matcher recurses on (pattern, string)
lexicographically; we thread explicit fuel so the definition is
structurally recursive (hence kernel-computable) and prove the intended
unfolding equations below. -/

/-- SQL LIKE matching of a pattern against a string (both as character
lists), fueled; `pattern.length + string.length + 1` fuel always
suffices. -/
def likeAux : Nat → List Char → List Char → Bool
  | 0, _, _ => false
  | _ + 1, [], s => s.isEmpty
  | fuel + 1, p :: ps, [] => if p = '%' then likeAux fuel ps [] else false
  | fuel + 1, p :: ps, c :: cs =>
    if p = '%' then likeAux fuel ps (c :: cs) || likeAux fuel (p :: ps) cs
    else if p = '_' then likeAux fuel ps cs
    else if p = c then likeAux fuel ps cs else false

/-- SQL LIKE: does the pattern (first argument) match the string (second
argument)? -/
def likeMatch (ps s : List Char) : Bool := likeAux (ps.length + s.length + 1) ps s

/-- Case-folded character list of a string (model of SQL lower-casing). -/
def lowerStr (s : String) : List Char := s.toList.map Char.toLower

/-- `column.ilike(pattern)`: case-insensitive SQL LIKE. -/
def ilike (s pattern : String) : Bool :=
  likeMatch (lowerStr pattern) (lowerStr s)

/-- Is the first list a leading segment of the second?  (Boolean,
executable; used to phrase the substring property the spec describes.) -/
def isPrefixB : List Char → List Char → Bool
  | [], _ => true
  | _ :: _, [] => false
  | a :: as, b :: bs => a == b && isPrefixB as bs

/-- Does the first list occur contiguously inside the second? -/
def isSubstrB (p s : List Char) : Bool :=
  match s with
  | [] => p.isEmpty
  | _ :: cs => isPrefixB p s || isSubstrB p cs

/-- The spec's notion of keyword matching: `kw` occurs in `s` as a
case-insensitive substring. -/
def containsCI (s kw : String) : Bool := isSubstrB (lowerStr kw) (lowerStr s)

/-- A character list free of SQL LIKE wildcards. -/
def NoWild (p : List Char) : Prop := ∀ c ∈ p, c ≠ '%' ∧ c ≠ '_'

/-- A keyword free of SQL LIKE wildcards (`%`, `_`). -/
def noWildStr (kw : String) : Prop := ∀ c ∈ kw.toList, c ≠ '%' ∧ c ≠ '_'

/-- The spec-side list filter: a book matches a keyword when its title or
its (non-NULL) description contains the keyword case-insensitively. -/
def bookHasKeyword (b : Book) (kw : String) : Bool :=
  containsCI b.title kw ||
    (match b.description with
      | some d => containsCI d kw
      | none => false)

/-! ## Route handlers -/

/-- `GET /books/` — `list_books`.  Applies the optional equality filters,
then the keyword filter (`%keyword%` against title OR description; a NULL
description never matches), then `offset(skip).limit(limit)`. -/
def list_books (db : DB) (skip : Nat := 0) (limit : Nat := 100)
    (author_id : Option Int := none) (category_id : Option Int := none)
    (year : Option Int := none) (keyword : Option String := none) :
    List Book :=
  let q := db.books
  let q : List Book := match author_id with
    | some a => q.filter (fun b => b.author_id == a)
    | none => q
  let q : List Book := match category_id with
    | some c => q.filter (fun b => b.category_id == c)
    | none => q
  let q : List Book := match year with
    | some y => q.filter (fun b => b.published_year == some y)
    | none => q
  let q : List Book := match keyword with
    | some kw =>
      let pat := "%" ++ kw ++ "%"
      q.filter (fun b =>
        ilike b.title pat ||
          (match b.description with
            | some d => ilike d pat
            | none => false))
    | none => q
  (q.drop skip).take limit

/-- `GET /books/{book_id}` — `get_book`. -/
def get_book (db : DB) (book_id : Int) : Except ApiError Book :=
  match db.books.find? (fun b => b.id == book_id) with
  | none => .error (.notFound "Book not found")
  | some book => .ok book

/-- `POST /books/` — `create_book`.  Checks that the referenced author and
category exist, then inserts the new row (id assigned by the store,
modelled by `nextBookId`) and returns it. -/
def create_book (db : DB) (book_in : BookCreate) :
    Except ApiError (DB × Book) :=
  match db.authors.find? (fun a => a.id == book_in.author_id) with
  | none => .error (.badRequest "Author does not exist")
  | some _ =>
    match db.categories.find? (fun c => c.id == book_in.category_id) with
    | none => .error (.badRequest "Category does not exist")
    | some _ =>
      let book : Book :=
        { id := db.nextBookId
          title := book_in.title
          description := book_in.description
          published_year := book_in.published_year
          author_id := book_in.author_id
          category_id := book_in.category_id
          cover_image := none }
      let db' : DB :=
        { db with
          books := db.books ++ [book]
          nextBookId := db.nextBookId + 1 }
      .ok (db', book)

/-- The three unconditional scalar assignments of `update_book`: each of
title / description / published_year is written iff it is not None in the
request body. -/
def applyScalarFields (book : Book) (up : BookUpdate) : Book :=
  let b := match up.title with
    | some t => { book with title := t }
    | none => book
  let b := match up.description with
    | some d => { b with description := some d }
    | none => b
  match up.published_year with
    | some y => { b with published_year := some y }
    | none => b

/-- The author_id branch of `update_book`: only when author_id is supplied
and differs from the current value is existence checked and the field
written. -/
def checkAuthorField (db : DB) (b : Book) (up : BookUpdate) :
    Except ApiError Book :=
  match up.author_id with
  | none => .ok b
  | some a =>
    if a ≠ b.author_id then
      match db.authors.find? (fun x => x.id == a) with
      | none => .error (.badRequest "New author does not exist")
      | some _ => .ok { b with author_id := a }
    else .ok b

/-- The category_id branch of `update_book`, symmetric to the author
branch. -/
def checkCategoryField (db : DB) (b : Book) (up : BookUpdate) :
    Except ApiError Book :=
  match up.category_id with
  | none => .ok b
  | some c =>
    if c ≠ b.category_id then
      match db.categories.find? (fun x => x.id == c) with
      | none => .error (.badRequest "New category does not exist")
      | some _ => .ok { b with category_id := c }
    else .ok b

/-- `PUT /books/{book_id}` — `update_book`.  Finds the row, applies the
partial update in source order (scalars, then author_id, then
category_id), and commits the mutated row; an exception before the commit
leaves the store unchanged. -/
def update_book (db : DB) (book_id : Int) (up : BookUpdate) :
    Except ApiError (DB × Book) :=
  match db.books.find? (fun b => b.id == book_id) with
  | none => .error (.notFound "Book not found")
  | some book =>
    match checkAuthorField db (applyScalarFields book up) up with
    | .error e => .error e
    | .ok b2 =>
      match checkCategoryField db b2 up with
      | .error e => .error e
      | .ok b3 =>
        let db' : DB :=
          { db with
            books := db.books.map (fun x => if x.id == book.id then b3 else x) }
        .ok (db', b3)

/-- `DELETE /books/{book_id}` (the second handler named `update_book` in
the source, registered on the delete route).  Removes the row with the
given primary key; returns no body. -/
def delete_book (db : DB) (book_id : Int) : Except ApiError DB :=
  match db.books.find? (fun b => b.id == book_id) with
  | none => .error (.notFound "Book not found")
  | some _ =>
    .ok { db with books := db.books.filter (fun b => !(b.id == book_id)) }

/-- Split a character list at every `/` (the raw components of a POSIX
path, empty pieces included); always returns at least one piece. -/
def splitSlash : List Char → List (List Char)
  | [] => [[]]
  | c :: cs =>
    match splitSlash cs with
    | [] => [[]]
    | h :: t => if c = '/' then [] :: h :: t else (c :: h) :: t

/-- `PurePath(filename).name`: pathlib's parser drops empty and `"."`
components (so trailing slashes and `/./` are ignored; `".."` is kept),
and the name is the last component that remains, empty if none. -/
def pathName (cs : List Char) : List Char :=
  ((splitSlash cs).filter
    (fun p => decide (p ≠ [] ∧ p ≠ ['.']))).getLastD []

/-- Index of the last `.` in a character list, if any. -/
def lastDotIdx : List Char → Option Nat
  | [] => none
  | x :: xs =>
    match lastDotIdx xs with
    | some i => some (i + 1)
    | none => if x = '.' then some 0 else none

/-- `Path(filename).suffix` of Python's pathlib: the extension of the
final path component — the substring from the last dot, provided that dot
is neither the first nor the last character of the component; empty
otherwise. -/
def pathSuffix (filename : String) : String :=
  let name := pathName filename.toList
  match lastDotIdx name with
  | some i => if 0 < i ∧ i < name.length - 1 then String.mk (name.drop i) else ""
  | none => ""

/-- Python `str.lower()` (model: character-wise case folding). -/
def strLower (s : String) : String := String.mk (s.toList.map Char.toLower)

/-- The 2 MiB upload limit (`max_size = 2 * 1024 * 1024`). -/
def max_size : Nat := 2 * 1024 * 1024

/-- The generated storage filename `f"book_{book_id}_{hex}{ext}"`. -/
def coverFilename (book_id : Int) (hex ext : String) : String :=
  "book_" ++ toString book_id ++ "_" ++ hex ++ ext

/-- `POST /books/{book_id}/cover` — `upload_book_cover`.  `hex` stands for
the random `uuid.uuid4().hex` string drawn by the handler, passed in as an
oracle so the function is deterministic. -/
def upload_book_cover (db : DB) (book_id : Int) (file : UploadFile)
    (hex : String) : Except ApiError (DB × Book) :=
  match db.books.find? (fun b => b.id == book_id) with
  | none => .error (.notFound "Book not found")
  | some book =>
    if file.content_type ∉ ["image/jpeg", "image/png"] then
      .error (.badRequest "Invalid image type. Only JPEG and PNG are allowed.")
    else
      let ext := strLower (pathSuffix file.filename)
      if ext ∉ [".jpeg", ".png", ".jpg"] then
        .error (.badRequest "Invalid image type. Only .jpg, .jpeg, .png are allowed.")
      else
        let contents := file.content
        if contents.length > max_size then
          .error (.badRequest "File to large. Max size is 2MB")
        else
          let filename := coverFilename book_id hex ext
          let book' : Book :=
            { book with cover_image := some ("/static/covers/" ++ filename) }
          let db' : DB :=
            { db with
              covers := db.covers ++ [(filename, contents)]
              books := db.books.map (fun x => if x.id == book.id then book' else x) }
          .ok (db', book')

/-! ## Concrete fixtures used by witnesses and counterexamples -/

/-- A store with one author, one category and one book (id 1). -/
def wAuthor : Author := { id := 1, name := "A. Writer", bio := none }

/-- Fixture category. -/
def wCategory : Category := { id := 1, name := "Fiction", description := none }

/-- Fixture book. -/
def wBook : Book :=
  { id := 1, title := "Dune", description := some "Desert planet"
    published_year := some 1965, author_id := 1, category_id := 1
    cover_image := none }

/-- Fixture store. -/
def wDB : DB :=
  { authors := [wAuthor], categories := [wCategory], books := [wBook]
    nextBookId := 2, covers := [] }

/-- An empty store. -/
def emptyDB : DB :=
  { authors := [], categories := [], books := [], nextBookId := 1, covers := [] }

/-- Fixture create request referencing author 1 / category 1. -/
def wBookCreate : BookCreate :=
  { title := "Dune", description := none, published_year := some 1965
    author_id := 1, category_id := 1 }

/-- Fixture patch supplying only the title. -/
def wTitlePatch : BookUpdate :=
  { title := some "Dune (1965)", description := none, published_year := none
    author_id := none, category_id := none }

/-- Fixture patch supplying an author_id equal to the book's current one. -/
def wSameAuthorPatch : BookUpdate :=
  { title := none, description := none, published_year := none
    author_id := some 1, category_id := none }

/-- Fixture patch supplying a dangling author_id. -/
def wBadAuthorPatch : BookUpdate :=
  { title := none, description := none, published_year := none
    author_id := some 99, category_id := none }

/-- A small PNG upload (uppercase extension, lowercased by the handler). -/
def wPng : UploadFile :=
  { filename := "cover.PNG", content_type := "image/png"
    content := [137, 80, 78, 71] }

/-- A GIF upload (rejected content type). -/
def wGif : UploadFile :=
  { filename := "cover.gif", content_type := "image/gif"
    content := [71, 73, 70] }

/-- A PNG-typed upload whose size is exactly 2 MiB. -/
def wExactPng : UploadFile :=
  { filename := "big.png", content_type := "image/png"
    content := List.replicate 2097152 0 }

/-- A PNG-typed upload one byte over 2 MiB. -/
def wBigPng : UploadFile :=
  { filename := "big.png", content_type := "image/png"
    content := List.replicate 2097153 0 }

/-- The result book of updating `wBook` with `wTitlePatch`. -/
def wBook2 : Book := { wBook with title := "Dune (1965)" }

/-- The store after that update. -/
def wDB2 : DB := { wDB with books := [wBook2] }

/-- The book created by `create_book wDB wBookCreate`. -/
def wBookNew : Book :=
  { id := 2, title := "Dune", description := none, published_year := some 1965
    author_id := 1, category_id := 1, cover_image := none }

/-- The store after that create. -/
def wDB3 : DB := { wDB with books := [wBook, wBookNew], nextBookId := 3 }

/-- A store holding `wBook` but NO author rows (the book's author record is
gone), to exercise the update path that skips the existence check. -/
def wDBNoAuthors : DB :=
  { authors := [], categories := [wCategory], books := [wBook]
    nextBookId := 2, covers := [] }

/-- Fixture patch supplying only a category_id equal to the book's
current one. -/
def wSameCategoryPatch : BookUpdate :=
  { title := none, description := none, published_year := none
    author_id := none, category_id := some 1 }

/-- A store holding `wBook` but NO category rows (the book's category
record is gone), to exercise the update path that skips the existence
check. -/
def wDBNoCategories : DB :=
  { authors := [wAuthor], categories := [], books := [wBook]
    nextBookId := 2, covers := [] }

/-- The store whose single book makes the wildcard keyword counterexample:
its title is "abc", which the SQL pattern `%a_c%` matches although "a_c"
is not a substring of it. -/
def cexBook : Book :=
  { id := 1, title := "abc", description := none, published_year := none
    author_id := 1, category_id := 1, cover_image := none }

/-- Store holding only `cexBook`. -/
def cexDB : DB :=
  { authors := [], categories := [], books := [cexBook]
    nextBookId := 2, covers := [] }

/-! ## Fuel elimination and unfolding equations for `likeMatch` -/

theorem likeAux_irrel : ∀ (f1 f2 : Nat) (ps s : List Char),
    ps.length + s.length < f1 → ps.length + s.length < f2 →
    likeAux f1 ps s = likeAux f2 ps s := by
  intro f1
  induction f1 using Nat.strong_induction_on with
  | _ f1 ih =>
    intro f2 ps s h1 h2
    match f1, h1, f2, h2 with
    | a + 1, h1, b + 1, h2 =>
      cases ps with
      | nil => cases s <;> rfl
      | cons p ps =>
        cases s with
        | nil =>
          show (if p = '%' then likeAux a ps [] else false)
             = (if p = '%' then likeAux b ps [] else false)
          rw [ih a (by omega) b ps [] (by simp at h1 ⊢; omega) (by simp at h2 ⊢; omega)]
        | cons c cs =>
          simp only [List.length_cons] at h1 h2
          show (if p = '%' then likeAux a ps (c :: cs) || likeAux a (p :: ps) cs
                else if p = '_' then likeAux a ps cs
                else if p = c then likeAux a ps cs else false)
             = (if p = '%' then likeAux b ps (c :: cs) || likeAux b (p :: ps) cs
                else if p = '_' then likeAux b ps cs
                else if p = c then likeAux b ps cs else false)
          have ha1 : ps.length + (c :: cs).length < a := by simp; omega
          have hb1 : ps.length + (c :: cs).length < b := by simp; omega
          have ha2 : (p :: ps).length + cs.length < a := by simp; omega
          have hb2 : (p :: ps).length + cs.length < b := by simp; omega
          have ha3 : ps.length + cs.length < a := by omega
          have hb3 : ps.length + cs.length < b := by omega
          rw [ih a (by omega) b ps (c :: cs) ha1 hb1,
              ih a (by omega) b (p :: ps) cs ha2 hb2,
              ih a (by omega) b ps cs ha3 hb3]

theorem likeAux_eq (f : Nat) (ps s : List Char) (h : ps.length + s.length < f) :
    likeAux f ps s = likeMatch ps s :=
  likeAux_irrel f (ps.length + s.length + 1) ps s h (Nat.lt_succ_self _)

theorem likeMatch_nil (s : List Char) : likeMatch [] s = s.isEmpty := by
  cases s <;> rfl

theorem likeMatch_cons_nil (p : Char) (ps : List Char) :
    likeMatch (p :: ps) [] = if p = '%' then likeMatch ps [] else false := by
  have step : likeMatch (p :: ps) []
      = (if p = '%' then likeAux ((p :: ps).length + ([] : List Char).length) ps [] else false) := rfl
  rw [step, likeAux_eq ((p :: ps).length + ([] : List Char).length) ps [] (by simp)]

theorem likeMatch_cons_cons (p : Char) (ps : List Char) (c : Char) (cs : List Char) :
    likeMatch (p :: ps) (c :: cs) =
      if p = '%' then likeMatch ps (c :: cs) || likeMatch (p :: ps) cs
      else if p = '_' then likeMatch ps cs
      else if p = c then likeMatch ps cs else false := by
  have step : likeMatch (p :: ps) (c :: cs)
      = (if p = '%' then
           likeAux ((p :: ps).length + (c :: cs).length) ps (c :: cs)
             || likeAux ((p :: ps).length + (c :: cs).length) (p :: ps) cs
         else if p = '_' then likeAux ((p :: ps).length + (c :: cs).length) ps cs
         else if p = c then likeAux ((p :: ps).length + (c :: cs).length) ps cs else false) := rfl
  have h1 : ps.length + (c :: cs).length < (p :: ps).length + (c :: cs).length := by simp
  have h2 : (p :: ps).length + cs.length < (p :: ps).length + (c :: cs).length := by simp
  have h3 : ps.length + cs.length < (p :: ps).length + (c :: cs).length := by simp; omega
  rw [step,
      likeAux_eq ((p :: ps).length + (c :: cs).length) ps (c :: cs) h1,
      likeAux_eq ((p :: ps).length + (c :: cs).length) (p :: ps) cs h2,
      likeAux_eq ((p :: ps).length + (c :: cs).length) ps cs h3]

/-! ## LIKE on wildcard-free patterns is substring containment -/

theorem likeMatch_percent_all (s : List Char) : likeMatch ['%'] s = true := by
  induction s with
  | nil => rw [likeMatch_cons_nil]; simp [likeMatch_nil]
  | cons c cs ih => rw [likeMatch_cons_cons]; simp [ih]

theorem likeMatch_percent_iff (ps s : List Char) :
    likeMatch ('%' :: ps) s = true ↔ ∃ l t, s = l ++ t ∧ likeMatch ps t = true := by
  induction s with
  | nil =>
    rw [likeMatch_cons_nil, if_pos rfl]
    constructor
    · intro h; exact ⟨[], [], rfl, h⟩
    · rintro ⟨l, t, hlt, ht⟩
      rcases List.append_eq_nil.mp hlt.symm with ⟨rfl, rfl⟩
      exact ht
  | cons c cs ih =>
    rw [likeMatch_cons_cons, if_pos rfl]
    simp only [Bool.or_eq_true, ih]
    constructor
    · rintro (h | ⟨l, t, rfl, ht⟩)
      · exact ⟨[], c :: cs, rfl, h⟩
      · exact ⟨c :: l, t, rfl, ht⟩
    · rintro ⟨l, t, hlt, ht⟩
      cases l with
      | nil => left; rw [List.nil_append] at hlt; rw [← hlt] at ht; exact ht
      | cons x l' =>
        right
        rw [List.cons_append] at hlt
        injection hlt with hx h2
        subst hx
        exact ⟨l', t, h2, ht⟩

theorem likeMatch_plain_append (rest : List Char) :
    ∀ (P s : List Char), NoWild P →
      (likeMatch (P ++ rest) s = true ↔ ∃ t, s = P ++ t ∧ likeMatch rest t = true) := by
  intro P
  induction P with
  | nil => intro s _; simp
  | cons p P ih =>
    intro s hP
    have hp : p ≠ '%' ∧ p ≠ '_' := hP p (List.mem_cons_self p P)
    have hP' : NoWild P := fun c hc => hP c (List.mem_cons_of_mem p hc)
    cases s with
    | nil =>
      rw [List.cons_append, likeMatch_cons_nil, if_neg hp.1]
      constructor
      · intro h; cases h
      · rintro ⟨t, ht, -⟩; cases ht
    | cons c cs =>
      rw [List.cons_append, likeMatch_cons_cons, if_neg hp.1, if_neg hp.2]
      by_cases hc : p = c
      · subst hc
        rw [if_pos rfl, ih cs hP']
        constructor
        · rintro ⟨t, rfl, ht⟩; exact ⟨t, rfl, ht⟩
        · rintro ⟨t, het, ht⟩
          rw [List.cons_append] at het
          injection het with hx h2
          exact ⟨t, h2, ht⟩
      · rw [if_neg hc]
        constructor
        · intro h; cases h
        · rintro ⟨t, het, -⟩
          rw [List.cons_append] at het
          injection het with hx h2
          exact absurd hx.symm hc

theorem isPrefixB_iff (p : List Char) :
    ∀ s, isPrefixB p s = true ↔ ∃ t, s = p ++ t := by
  induction p with
  | nil => intro s; simp [isPrefixB]
  | cons a as ih =>
    intro s
    cases s with
    | nil =>
      simp only [isPrefixB]
      constructor
      · intro h; cases h
      · rintro ⟨t, ht⟩; cases ht
    | cons b bs =>
      simp only [isPrefixB, Bool.and_eq_true, beq_iff_eq, ih bs]
      constructor
      · rintro ⟨rfl, t, rfl⟩; exact ⟨t, rfl⟩
      · rintro ⟨t, het⟩
        rw [List.cons_append] at het
        injection het with hx h2
        exact ⟨hx.symm, t, h2⟩

theorem isSubstrB_iff (p s : List Char) :
    isSubstrB p s = true ↔ ∃ l r, s = l ++ p ++ r := by
  induction s with
  | nil =>
    simp only [isSubstrB, List.isEmpty_iff]
    constructor
    · rintro rfl; exact ⟨[], [], rfl⟩
    · rintro ⟨l, r, hlr⟩
      rcases List.append_eq_nil.mp hlr.symm with ⟨hh, rfl⟩
      rcases List.append_eq_nil.mp hh with ⟨rfl, rfl⟩
      rfl
  | cons c cs ih =>
    simp only [isSubstrB, Bool.or_eq_true, isPrefixB_iff, ih]
    constructor
    · rintro (⟨t, ht⟩ | ⟨l, r, hlr⟩)
      · refine ⟨[], t, ?_⟩; simp [ht]
      · exact ⟨c :: l, r, by simp [hlr]⟩
    · rintro ⟨l, r, hlr⟩
      cases l with
      | nil => left; exact ⟨r, by simpa using hlr⟩
      | cons x l' =>
        right
        rw [List.cons_append, List.cons_append] at hlr
        injection hlr with hx h2
        subst hx
        exact ⟨l', r, h2⟩

theorem likeMatch_substr (P s : List Char) (hP : NoWild P) :
    likeMatch ('%' :: (P ++ ['%'])) s = isSubstrB P s := by
  rw [Bool.eq_iff_iff, likeMatch_percent_iff, isSubstrB_iff]
  constructor
  · rintro ⟨l, t, rfl, ht⟩
    rw [likeMatch_plain_append ['%'] P t hP] at ht
    obtain ⟨u, rfl, -⟩ := ht
    exact ⟨l, u, by simp⟩
  · rintro ⟨l, r, rfl⟩
    refine ⟨l, P ++ r, by simp, ?_⟩
    rw [likeMatch_plain_append ['%'] P (P ++ r) hP]
    exact ⟨r, rfl, likeMatch_percent_all r⟩

/-! ## Case folding does not create wildcards -/

theorem toNat_ofNat_valid (n : Nat) (h : n < 0xd800) : (Char.ofNat n).toNat = n := by
  have hv : Nat.isValidChar n := Or.inl h
  rw [Char.ofNat, dif_pos hv]
  simp [Char.ofNatAux, Char.toNat, UInt32.toNat]

theorem toLower_shape (c : Char) :
    Char.toLower c = c ∨
      (65 ≤ c.toNat ∧ c.toNat ≤ 90 ∧ (Char.toLower c).toNat = c.toNat + 32) := by
  unfold Char.toLower
  simp only []
  by_cases h : c.toNat ≥ 65 ∧ c.toNat ≤ 90
  · rw [if_pos h]
    right
    refine ⟨h.1, h.2, ?_⟩
    exact toNat_ofNat_valid _ (by omega)
  · rw [if_neg h]
    left; rfl

theorem toLower_wild {c w : Char} (hw : w.toNat < 97 ∨ 122 < w.toNat)
    (h : Char.toLower c = w) : c = w := by
  rcases toLower_shape c with h1 | ⟨h1, h2, h3⟩
  · rw [← h1, h]
  · exfalso
    rw [h] at h3
    omega

theorem noWild_lowerStr (kw : String) (h : noWildStr kw) : NoWild (lowerStr kw) := by
  intro c hc
  rw [lowerStr, List.mem_map] at hc
  obtain ⟨c0, hc0, rfl⟩ := hc
  have h0 := h c0 hc0
  constructor
  · intro he
    exact h0.1 (toLower_wild (by left; decide) he)
  · intro he
    exact h0.2 (toLower_wild (by left; decide) he)

theorem lowerStr_pattern (kw : String) :
    lowerStr ("%" ++ kw ++ "%") = '%' :: (lowerStr kw ++ ['%']) := by
  have hdata : ("%" ++ kw ++ "%").toList = '%' :: (kw.toList ++ ['%']) := by
    show ("%" ++ kw ++ "%").data = '%' :: (kw.data ++ ['%'])
    rw [String.data_append, String.data_append]
    rfl
  rw [lowerStr, hdata]
  simp [lowerStr]

theorem ilike_substr (s kw : String) (h : NoWild (lowerStr kw)) :
    ilike s ("%" ++ kw ++ "%") = containsCI s kw := by
  rw [ilike, lowerStr_pattern, likeMatch_substr (lowerStr kw) (lowerStr s) h, containsCI]

/-! ## Shape lemmas for the handlers -/

theorem applyScalarFields_eq (book : Book) (up : BookUpdate) :
    applyScalarFields book up =
      { book with
        title := match up.title with | some t => t | none => book.title
        description := match up.description with | some d => some d | none => book.description
        published_year := match up.published_year with | some y => some y | none => book.published_year } := by
  unfold applyScalarFields
  cases up.title <;> cases up.description <;> cases up.published_year <;> rfl

theorem checkAuthorField_none (db : DB) (b : Book) (up : BookUpdate)
    (h : up.author_id = none) : checkAuthorField db b up = .ok b := by
  unfold checkAuthorField; rw [h]

theorem checkAuthorField_same (db : DB) (b : Book) (up : BookUpdate)
    (h : up.author_id = some b.author_id) : checkAuthorField db b up = .ok b := by
  unfold checkAuthorField; rw [h]; simp

theorem checkAuthorField_missing (db : DB) (b : Book) (up : BookUpdate) (a : Int)
    (h : up.author_id = some a) (hne : a ≠ b.author_id)
    (hf : db.authors.find? (fun x => x.id == a) = none) :
    checkAuthorField db b up = .error (.badRequest "New author does not exist") := by
  unfold checkAuthorField; rw [h]; simp [hne, hf]

theorem checkAuthorField_error (db : DB) (b : Book) (up : BookUpdate) (e : ApiError)
    (h : checkAuthorField db b up = .error e) :
    e = .badRequest "New author does not exist" := by
  unfold checkAuthorField at h
  split at h
  · simp at h
  · split at h
    · split at h
      · rw [Except.error.injEq] at h
        exact h.symm
      · simp at h
    · simp at h

theorem checkAuthorField_ok (db : DB) (b : Book) (up : BookUpdate) (b2 : Book)
    (h : checkAuthorField db b up = .ok b2) :
    b2.title = b.title ∧ b2.description = b.description ∧
    b2.published_year = b.published_year ∧ b2.category_id = b.category_id ∧
    b2.cover_image = b.cover_image ∧ b2.id = b.id ∧
    (up.author_id = none → b2.author_id = b.author_id) ∧
    (∀ a, up.author_id = some a → b2.author_id = a) := by
  unfold checkAuthorField at h
  split at h
  · rename_i hau
    rw [Except.ok.injEq] at h
    subst h
    simp [hau]
  · rename_i a hau
    split at h
    · rename_i hne
      split at h
      · simp at h
      · rename_i x hf
        rw [Except.ok.injEq] at h
        subst h
        simp [hau]
    · rename_i hne
      rw [Except.ok.injEq] at h
      subst h
      push_neg at hne
      simp [hau, hne]

theorem checkCategoryField_none (db : DB) (b : Book) (up : BookUpdate)
    (h : up.category_id = none) : checkCategoryField db b up = .ok b := by
  unfold checkCategoryField; rw [h]

theorem checkCategoryField_same (db : DB) (b : Book) (up : BookUpdate)
    (h : up.category_id = some b.category_id) : checkCategoryField db b up = .ok b := by
  unfold checkCategoryField; rw [h]; simp

theorem checkCategoryField_missing (db : DB) (b : Book) (up : BookUpdate) (c : Int)
    (h : up.category_id = some c) (hne : c ≠ b.category_id)
    (hf : db.categories.find? (fun x => x.id == c) = none) :
    checkCategoryField db b up = .error (.badRequest "New category does not exist") := by
  unfold checkCategoryField; rw [h]; simp [hne, hf]

theorem checkCategoryField_ok (db : DB) (b : Book) (up : BookUpdate) (b2 : Book)
    (h : checkCategoryField db b up = .ok b2) :
    b2.title = b.title ∧ b2.description = b.description ∧
    b2.published_year = b.published_year ∧ b2.author_id = b.author_id ∧
    b2.cover_image = b.cover_image ∧ b2.id = b.id ∧
    (up.category_id = none → b2.category_id = b.category_id) ∧
    (∀ c, up.category_id = some c → b2.category_id = c) := by
  unfold checkCategoryField at h
  split at h
  · rename_i hcu
    rw [Except.ok.injEq] at h
    subst h
    simp [hcu]
  · rename_i c hcu
    split at h
    · rename_i hne
      split at h
      · simp at h
      · rename_i x hf
        rw [Except.ok.injEq] at h
        subst h
        simp [hcu]
    · rename_i hne
      rw [Except.ok.injEq] at h
      subst h
      push_neg at hne
      simp [hcu, hne]

theorem update_book_not_found (db : DB) (id : Int) (up : BookUpdate)
    (h : db.books.find? (fun b => b.id == id) = none) :
    update_book db id up = .error (.notFound "Book not found") := by
  unfold update_book; rw [h]

theorem update_book_eq (db : DB) (id : Int) (up : BookUpdate) (book : Book)
    (hb : db.books.find? (fun b => b.id == id) = some book) :
    update_book db id up =
      match checkAuthorField db (applyScalarFields book up) up with
      | .error e => .error e
      | .ok b2 =>
        match checkCategoryField db b2 up with
        | .error e => .error e
        | .ok b3 =>
          .ok ({ db with
                  books := db.books.map (fun x => if x.id == book.id then b3 else x) },
               b3) := by
  unfold update_book
  rw [hb]

theorem update_book_ok_shape (db : DB) (id : Int) (up : BookUpdate) (book : Book)
    (db' : DB) (b' : Book)
    (hb : db.books.find? (fun b => b.id == id) = some book)
    (hok : update_book db id up = .ok (db', b')) :
    ∃ b2, checkAuthorField db (applyScalarFields book up) up = .ok b2 ∧
      checkCategoryField db b2 up = .ok b' ∧
      db' = { db with
              books := db.books.map (fun x => if x.id == book.id then b' else x) } := by
  rw [update_book_eq db id up book hb] at hok
  split at hok
  · simp at hok
  · rename_i b2 hca
    split at hok
    · simp at hok
    · rename_i b3 hcc
      rw [Except.ok.injEq, Prod.mk.injEq] at hok
      obtain ⟨h1, h2⟩ := hok
      subst h2
      exact ⟨b2, hca, hcc, h1.symm⟩

theorem update_book_err1 (db : DB) (id : Int) (up : BookUpdate) (book : Book)
    (e : ApiError) (hb : db.books.find? (fun b => b.id == id) = some book)
    (hca : checkAuthorField db (applyScalarFields book up) up = .error e) :
    update_book db id up = .error e := by
  rw [update_book_eq db id up book hb, hca]

theorem update_book_err2 (db : DB) (id : Int) (up : BookUpdate) (book b2 : Book)
    (e : ApiError) (hb : db.books.find? (fun b => b.id == id) = some book)
    (hca : checkAuthorField db (applyScalarFields book up) up = .ok b2)
    (hcc : checkCategoryField db b2 up = .error e) :
    update_book db id up = .error e := by
  rw [update_book_eq db id up book hb, hca]
  show (match checkCategoryField db b2 up with
        | Except.error e => (Except.error e : Except ApiError (DB × Book))
        | Except.ok b3 =>
          Except.ok
            ({ db with
               books := db.books.map (fun x : Book => if x.id == book.id then b3 else x) },
             b3)) = Except.error e
  rw [hcc]

theorem update_book_ok_eq (db : DB) (id : Int) (up : BookUpdate) (book b2 b3 : Book)
    (hb : db.books.find? (fun b => b.id == id) = some book)
    (hca : checkAuthorField db (applyScalarFields book up) up = .ok b2)
    (hcc : checkCategoryField db b2 up = .ok b3) :
    update_book db id up =
      .ok ({ db with
              books := db.books.map (fun x => if x.id == book.id then b3 else x) },
           b3) := by
  rw [update_book_eq db id up book hb, hca]
  show (match checkCategoryField db b2 up with
        | Except.error e => (Except.error e : Except ApiError (DB × Book))
        | Except.ok b3 =>
          Except.ok
            ({ db with
               books := db.books.map (fun x : Book => if x.id == book.id then b3 else x) },
             b3)) = _
  rw [hcc]

theorem upload_not_found (db : DB) (id : Int) (file : UploadFile) (hex : String)
    (h : db.books.find? (fun b => b.id == id) = none) :
    upload_book_cover db id file hex = .error (.notFound "Book not found") := by
  unfold upload_book_cover; rw [h]

theorem upload_bad_type (db : DB) (id : Int) (file : UploadFile) (hex : String)
    (book : Book) (hb : db.books.find? (fun b => b.id == id) = some book)
    (hct : file.content_type ∉ ["image/jpeg", "image/png"]) :
    upload_book_cover db id file hex
      = .error (.badRequest "Invalid image type. Only JPEG and PNG are allowed.") := by
  unfold upload_book_cover
  rw [hb]
  simp [hct]

theorem upload_bad_ext (db : DB) (id : Int) (file : UploadFile) (hex : String)
    (book : Book) (hb : db.books.find? (fun b => b.id == id) = some book)
    (hct : file.content_type ∈ ["image/jpeg", "image/png"])
    (hext : strLower (pathSuffix file.filename) ∉ [".jpeg", ".png", ".jpg"]) :
    upload_book_cover db id file hex
      = .error (.badRequest "Invalid image type. Only .jpg, .jpeg, .png are allowed.") := by
  unfold upload_book_cover
  rw [hb]
  simp [hct, hext]

theorem upload_too_big (db : DB) (id : Int) (file : UploadFile) (hex : String)
    (book : Book) (hb : db.books.find? (fun b => b.id == id) = some book)
    (hct : file.content_type ∈ ["image/jpeg", "image/png"])
    (hext : strLower (pathSuffix file.filename) ∈ [".jpeg", ".png", ".jpg"])
    (hlen : file.content.length > max_size) :
    upload_book_cover db id file hex
      = .error (.badRequest "File to large. Max size is 2MB") := by
  unfold upload_book_cover
  rw [hb]
  simp [hct, hext, hlen]

theorem upload_ok (db : DB) (id : Int) (file : UploadFile) (hex : String)
    (book : Book) (hb : db.books.find? (fun b => b.id == id) = some book)
    (hct : file.content_type ∈ ["image/jpeg", "image/png"])
    (hext : strLower (pathSuffix file.filename) ∈ [".jpeg", ".png", ".jpg"])
    (hlen : ¬ file.content.length > max_size) :
    upload_book_cover db id file hex =
      .ok ({ db with
              covers := db.covers ++
                [(coverFilename id hex (strLower (pathSuffix file.filename)), file.content)]
              books := db.books.map (fun x =>
                if x.id == book.id then
                  { book with
                    cover_image := some ("/static/covers/"
                      ++ coverFilename id hex (strLower (pathSuffix file.filename))) }
                else x) },
           { book with
             cover_image := some ("/static/covers/"
               ++ coverFilename id hex (strLower (pathSuffix file.filename))) }) := by
  unfold upload_book_cover
  rw [hb]
  simp [hct, hext, hlen]

/-! ## Claim theorems -/

/-- Claim C1: a create-book request whose author_id (resp. category_id)
references no stored author (resp. category) fails with BadRequest (400)
whose detail names the missing reference, and — errors carrying no new
state — nothing is persisted; otherwise the book is persisted (appended to
the stored books with the system-assigned id `nextBookId`), echoes the
supplied fields, and is returned with status 201. -/
theorem create_book_ref_checks (db : DB) (bin : BookCreate) :
    (db.authors.find? (fun a => a.id == bin.author_id) = none →
       create_book db bin = .error (.badRequest "Author does not exist") ∧
       (ApiError.badRequest "Author does not exist").statusCode = 400) ∧
    (∀ a, db.authors.find? (fun x => x.id == bin.author_id) = some a →
       db.categories.find? (fun c => c.id == bin.category_id) = none →
       create_book db bin = .error (.badRequest "Category does not exist") ∧
       (ApiError.badRequest "Category does not exist").statusCode = 400) ∧
    (∀ a c, db.authors.find? (fun x => x.id == bin.author_id) = some a →
       db.categories.find? (fun x => x.id == bin.category_id) = some c →
       ∃ bk db', create_book db bin = .ok (db', bk) ∧
         db'.books = db.books ++ [bk] ∧
         db'.authors = db.authors ∧ db'.categories = db.categories ∧
         db'.covers = db.covers ∧
         bk.id = db.nextBookId ∧ db'.nextBookId = db.nextBookId + 1 ∧
         bk.title = bin.title ∧ bk.description = bin.description ∧
         bk.published_year = bin.published_year ∧
         bk.author_id = bin.author_id ∧ bk.category_id = bin.category_id ∧
         create_book_status_code = 201) := by
  refine ⟨?_, ?_, ?_⟩
  · intro h
    exact ⟨by unfold create_book; rw [h], rfl⟩
  · intro a ha hc
    exact ⟨by unfold create_book; rw [ha, hc], rfl⟩
  · intro a c ha hc
    refine ⟨{ id := db.nextBookId, title := bin.title, description := bin.description
              published_year := bin.published_year, author_id := bin.author_id
              category_id := bin.category_id, cover_image := none },
            { db with
              books := db.books ++
                [{ id := db.nextBookId, title := bin.title
                   description := bin.description
                   published_year := bin.published_year
                   author_id := bin.author_id, category_id := bin.category_id
                   cover_image := none }]
              nextBookId := db.nextBookId + 1 },
            ?_, rfl, rfl, rfl, rfl, rfl, rfl, rfl, rfl, rfl, rfl, rfl, rfl⟩
    unfold create_book; rw [ha, hc]

/-- Witness for C1: on a store with no authors the create fails naming the
author; on the fixture store it succeeds with id 2. -/
theorem create_book_ref_checks_witness :
    create_book emptyDB wBookCreate = .error (.badRequest "Author does not exist") ∧
    (∃ bk db', create_book wDB wBookCreate = .ok (db', bk) ∧ bk.id = 2) := by
  constructor
  · exact ((create_book_ref_checks emptyDB wBookCreate).1 (by decide)).1
  · obtain ⟨bk, db', h1, -, -, -, -, h6, -⟩ :=
      (create_book_ref_checks wDB wBookCreate).2.2 wAuthor wCategory (by decide) (by decide)
    exact ⟨bk, db', h1, h6.trans rfl⟩

/-- Claim C2: on an existing book, an update that supplies an author_id
(resp. category_id) differing from the current value and referencing no
stored author (resp. category) fails with BadRequest (400); the error
carries no new state, so the stored book is unmodified. -/
theorem update_book_fk_checks (db : DB) (id : Int) (up : BookUpdate) (book : Book)
    (hb : db.books.find? (fun b => b.id == id) = some book) :
    (∀ a, up.author_id = some a → a ≠ book.author_id →
       db.authors.find? (fun x => x.id == a) = none →
       update_book db id up = .error (.badRequest "New author does not exist") ∧
       (ApiError.badRequest "New author does not exist").statusCode = 400) ∧
    (∀ c, up.category_id = some c → c ≠ book.category_id →
       db.categories.find? (fun x => x.id == c) = none →
       ∃ d, update_book db id up = .error (.badRequest d) ∧
         (ApiError.badRequest d).statusCode = 400) := by
  have haut : (applyScalarFields book up).author_id = book.author_id := by
    rw [applyScalarFields_eq]
  have hcat : (applyScalarFields book up).category_id = book.category_id := by
    rw [applyScalarFields_eq]
  constructor
  · intro a ha hne hf
    refine ⟨?_, rfl⟩
    exact update_book_err1 db id up book _ hb
      (checkAuthorField_missing db _ up a ha (by rw [haut]; exact hne) hf)
  · intro c hc hne hf
    cases hca : checkAuthorField db (applyScalarFields book up) up with
    | error e =>
      refine ⟨"New author does not exist", ?_, rfl⟩
      have he := checkAuthorField_error db _ up e hca
      rw [← he]
      exact update_book_err1 db id up book e hb hca
    | ok b2 =>
      refine ⟨"New category does not exist", ?_, rfl⟩
      obtain ⟨-, -, -, hc2, -, -, -, -⟩ := checkAuthorField_ok db _ up b2 hca
      exact update_book_err2 db id up book b2 _ hb hca
        (checkCategoryField_missing db b2 up c hc (by rw [hc2, hcat]; exact hne) hf)

/-- Witness for C2: updating the fixture book with a dangling author_id 99
fails with the author BadRequest. -/
theorem update_book_fk_checks_witness :
    update_book wDB 1 wBadAuthorPatch = .error (.badRequest "New author does not exist") := by
  exact ((update_book_fk_checks wDB 1 wBadAuthorPatch wBook (by decide)).1
    99 (by decide) (by decide) (by decide)).1

/-- Claim C3: a successful partial update writes each field only if it is
present (non-None) in the patch: absent fields — including cover_image and
the id, which the patch cannot even carry — keep their stored values, and
the only stored row that changes is the updated book itself.  In
particular an update supplying only the title changes only the title. -/
theorem update_book_partial (db : DB) (id : Int) (up : BookUpdate) (book : Book)
    (db' : DB) (b' : Book)
    (hb : db.books.find? (fun b => b.id == id) = some book)
    (hok : update_book db id up = .ok (db', b')) :
    (up.title = none → b'.title = book.title) ∧
    (∀ t, up.title = some t → b'.title = t) ∧
    (up.description = none → b'.description = book.description) ∧
    (∀ d, up.description = some d → b'.description = some d) ∧
    (up.published_year = none → b'.published_year = book.published_year) ∧
    (∀ y, up.published_year = some y → b'.published_year = some y) ∧
    (up.author_id = none → b'.author_id = book.author_id) ∧
    (up.category_id = none → b'.category_id = book.category_id) ∧
    b'.cover_image = book.cover_image ∧
    b'.id = book.id ∧
    db'.books = db.books.map (fun x => if x.id == book.id then b' else x) ∧
    db'.authors = db.authors ∧ db'.categories = db.categories ∧
    db'.covers = db.covers ∧ db'.nextBookId = db.nextBookId := by
  obtain ⟨b2, hca, hcc, hdb⟩ := update_book_ok_shape db id up book db' b' hb hok
  obtain ⟨ht2, hd2, hy2, hc2, hcov2, hid2, han2, has2⟩ :=
    checkAuthorField_ok db _ up b2 hca
  obtain ⟨ht3, hd3, hy3, ha3, hcov3, hid3, hcn3, hcs3⟩ :=
    checkCategoryField_ok db b2 up b' hcc
  have hasf := applyScalarFields_eq book up
  subst hdb
  refine ⟨?_, ?_, ?_, ?_, ?_, ?_, ?_, ?_, ?_, ?_, rfl, rfl, rfl, rfl, rfl⟩
  · intro h; rw [ht3, ht2, hasf]; simp [h]
  · intro t h; rw [ht3, ht2, hasf]; simp [h]
  · intro h; rw [hd3, hd2, hasf]; simp [h]
  · intro d h; rw [hd3, hd2, hasf]; simp [h]
  · intro h; rw [hy3, hy2, hasf]; simp [h]
  · intro y h; rw [hy3, hy2, hasf]; simp [h]
  · intro h; rw [ha3, han2 h, hasf]
  · intro h; rw [hcn3 h, hc2, hasf]
  · rw [hcov3, hcov2, hasf]
  · rw [hid3, hid2, hasf]

/-- Witness for C3: patching only the title of the fixture book leaves
author, category and cover untouched. -/
theorem update_book_partial_witness :
    update_book wDB 1 wTitlePatch = .ok (wDB2, wBook2) ∧
    wBook2.author_id = wBook.author_id ∧
    wBook2.category_id = wBook.category_id ∧
    wBook2.cover_image = wBook.cover_image := by
  have hok : update_book wDB 1 wTitlePatch = .ok (wDB2, wBook2) := by decide
  obtain ⟨-, -, -, -, -, -, han, hcn, hcov, -⟩ :=
    update_book_partial wDB 1 wTitlePatch wBook wDB2 wBook2 (by decide) hok
  exact ⟨hok, han rfl, hcn rfl, hcov⟩

/-- Claim C8: for an absent book id, get-book and delete-book both fail
with NotFound (404), the error carrying no new state; for a present id,
delete-book removes exactly the rows with that primary key (and nothing
else), returning no body with status 204. -/
theorem get_delete_semantics (db : DB) (id : Int) :
    (db.books.find? (fun b => b.id == id) = none →
       get_book db id = .error (.notFound "Book not found") ∧
       delete_book db id = .error (.notFound "Book not found") ∧
       (ApiError.notFound "Book not found").statusCode = 404) ∧
    (∀ book, db.books.find? (fun b => b.id == id) = some book →
       ∃ db', delete_book db id = .ok db' ∧
         db'.books = db.books.filter (fun b => !(b.id == id)) ∧
         (∀ b, b ∈ db'.books ↔ b ∈ db.books ∧ b.id ≠ id) ∧
         db'.authors = db.authors ∧ db'.categories = db.categories ∧
         db'.covers = db.covers ∧ db'.nextBookId = db.nextBookId ∧
         delete_book_status_code = 204) := by
  constructor
  · intro h
    refine ⟨?_, ?_, rfl⟩
    · unfold get_book; rw [h]
    · unfold delete_book; rw [h]
  · intro book h
    refine ⟨{ db with books := db.books.filter (fun b => !(b.id == id)) },
            ?_, rfl, ?_, rfl, rfl, rfl, rfl, rfl⟩
    · unfold delete_book; rw [h]
    · intro b
      simp [List.mem_filter]

/-- Witness for C8: deleting id 2 (absent) 404s; deleting id 1 removes the
only book of the fixture store. -/
theorem get_delete_semantics_witness :
    get_book wDB 2 = .error (.notFound "Book not found") ∧
    delete_book wDB 2 = .error (.notFound "Book not found") ∧
    (∃ db', delete_book wDB 1 = .ok db' ∧ db'.books = []) := by
  obtain ⟨h1, h2, -⟩ := (get_delete_semantics wDB 2).1 (by decide)
  obtain ⟨db', hd, hbooks, -⟩ := (get_delete_semantics wDB 1).2 wBook (by decide)
  exact ⟨h1, h2, db', hd, hbooks.trans (by decide)⟩

/-- Claim C9: cover_image is written only by the upload endpoint: a
created book starts with cover_image = NULL, and a successful update
leaves every stored book's cover_image at the value some stored book with
the same id already had — so a book never uploaded to keeps cover_image
absent. -/
theorem cover_image_only_upload (db : DB) :
    (∀ bin db' bk, create_book db bin = .ok (db', bk) →
       bk.cover_image = none ∧ db'.books = db.books ++ [bk]) ∧
    (∀ id up db' b', update_book db id up = .ok (db', b') →
       ∀ b2 ∈ db'.books, ∃ b1 ∈ db.books, b2.id = b1.id ∧
         b2.cover_image = b1.cover_image) := by
  constructor
  · intro bin db' bk h
    unfold create_book at h
    split at h
    · simp at h
    · split at h
      · simp at h
      · rw [Except.ok.injEq, Prod.mk.injEq] at h
        obtain ⟨h1, h2⟩ := h
        subst h1
        subst h2
        exact ⟨rfl, rfl⟩
  · intro id up db' b' h b2 hb2
    cases hfind : db.books.find? (fun b => b.id == id) with
    | none =>
      rw [update_book_not_found db id up hfind] at h
      simp at h
    | some book =>
      obtain ⟨bmid, hca, hcc, hdb⟩ := update_book_ok_shape db id up book db' b' hfind h
      subst hdb
      obtain ⟨x, hx, hfx⟩ := List.mem_map.mp hb2
      by_cases hxid : (x.id == book.id) = true
      · rw [if_pos hxid] at hfx
        subst hfx
        have hbmem : book ∈ db.books := List.mem_of_find?_eq_some hfind
        obtain ⟨-, -, -, -, hcov3, hid3, -, -⟩ :=
          checkCategoryField_ok db bmid up b' hcc
        obtain ⟨-, -, -, -, hcov2, hid2, -, -⟩ :=
          checkAuthorField_ok db _ up bmid hca
        refine ⟨book, hbmem, ?_, ?_⟩
        · rw [hid3, hid2, applyScalarFields_eq]
        · rw [hcov3, hcov2, applyScalarFields_eq]
      · rw [if_neg hxid] at hfx
        subst hfx
        exact ⟨x, hx, rfl, rfl⟩

/-- Witness for C9: the book created on the fixture store has no cover. -/
theorem cover_image_only_upload_witness :
    create_book wDB wBookCreate = .ok (wDB3, wBookNew) ∧
    wBookNew.cover_image = none := by
  have hok : create_book wDB wBookCreate = .ok (wDB3, wBookNew) := by decide
  obtain ⟨h1, -⟩ := (cover_image_only_upload wDB).1 wBookCreate wDB3 wBookNew hok
  exact ⟨hok, h1⟩

/-- Claim C4: uploading a cover to an existing book with declared type
image/jpeg or image/png, lowercased filename extension .jpg/.jpeg/.png,
and content of at most 2 MiB, appends the bytes to the storage sink under
the generated name `book_{id}_{hex}{ext}`, sets the book's cover_image to
`/static/covers/{filename}`, commits the row, and returns the updated
record with status 200. -/
theorem upload_cover_success (db : DB) (id : Int) (file : UploadFile)
    (hex : String) (book : Book)
    (hb : db.books.find? (fun b => b.id == id) = some book)
    (hct : file.content_type = "image/jpeg" ∨ file.content_type = "image/png")
    (hext : strLower (pathSuffix file.filename) = ".jpg" ∨
            strLower (pathSuffix file.filename) = ".jpeg" ∨
            strLower (pathSuffix file.filename) = ".png")
    (hsize : file.content.length ≤ max_size) :
    upload_book_cover db id file hex =
      .ok ({ db with
              covers := db.covers ++
                [(coverFilename id hex (strLower (pathSuffix file.filename)),
                  file.content)]
              books := db.books.map (fun x =>
                if x.id == book.id then
                  { book with
                    cover_image := some ("/static/covers/"
                      ++ coverFilename id hex (strLower (pathSuffix file.filename))) }
                else x) },
           { book with
             cover_image := some ("/static/covers/"
               ++ coverFilename id hex (strLower (pathSuffix file.filename))) }) ∧
    ok_status_code = 200 := by
  refine ⟨?_, rfl⟩
  apply upload_ok db id file hex book hb
  · rcases hct with h | h <;> simp [h]
  · rcases hext with h | h | h <;> simp [h]
  · omega

/-- Witness for C4: uploading the small fixture PNG (uppercase `.PNG`
extension) to book 1 sets its cover URL. -/
theorem upload_cover_success_witness :
    ∃ db' b', upload_book_cover wDB 1 wPng "cafe" = .ok (db', b') ∧
      b'.cover_image = some "/static/covers/book_1_cafe.png" := by
  obtain ⟨h, -⟩ := upload_cover_success wDB 1 wPng "cafe" wBook (by decide)
    (by right; decide) (by right; right; decide) (by decide)
  refine ⟨_, _, h, by decide⟩

/-- Claim C5: a cover upload to an absent book id fails with NotFound
(404); on an existing book, a declared content type other than image/jpeg
or image/png, or a lowercased filename extension outside
.jpg/.jpeg/.png, fails with BadRequest (400) — the error carries no new
state, so cover_image is unmodified. -/
theorem upload_cover_rejects (db : DB) (id : Int) (file : UploadFile)
    (hex : String) :
    (db.books.find? (fun b => b.id == id) = none →
       upload_book_cover db id file hex = .error (.notFound "Book not found") ∧
       (ApiError.notFound "Book not found").statusCode = 404) ∧
    (∀ book, db.books.find? (fun b => b.id == id) = some book →
       file.content_type ≠ "image/jpeg" → file.content_type ≠ "image/png" →
       upload_book_cover db id file hex
         = .error (.badRequest "Invalid image type. Only JPEG and PNG are allowed.") ∧
       (ApiError.badRequest "Invalid image type. Only JPEG and PNG are allowed.").statusCode = 400) ∧
    (∀ book, db.books.find? (fun b => b.id == id) = some book →
       (file.content_type = "image/jpeg" ∨ file.content_type = "image/png") →
       strLower (pathSuffix file.filename) ≠ ".jpg" →
       strLower (pathSuffix file.filename) ≠ ".jpeg" →
       strLower (pathSuffix file.filename) ≠ ".png" →
       upload_book_cover db id file hex
         = .error (.badRequest "Invalid image type. Only .jpg, .jpeg, .png are allowed.") ∧
       (ApiError.badRequest "Invalid image type. Only .jpg, .jpeg, .png are allowed.").statusCode = 400) := by
  refine ⟨?_, ?_, ?_⟩
  · intro h
    exact ⟨upload_not_found db id file hex h, rfl⟩
  · intro book hb h1 h2
    refine ⟨upload_bad_type db id file hex book hb ?_, rfl⟩
    simp [h1, h2]
  · intro book hb hct h1 h2 h3
    refine ⟨upload_bad_ext db id file hex book hb ?_ ?_, rfl⟩
    · rcases hct with h | h <;> simp [h]
    · simp [h1, h2, h3]

/-- Witness for C5: a GIF upload to book 1 is rejected with 400, and an
upload to the absent id 2 is rejected with 404. -/
theorem upload_cover_rejects_witness :
    upload_book_cover wDB 1 wGif "cafe"
      = .error (.badRequest "Invalid image type. Only JPEG and PNG are allowed.") ∧
    upload_book_cover wDB 2 wPng "cafe" = .error (.notFound "Book not found") := by
  constructor
  · exact ((upload_cover_rejects wDB 1 wGif "cafe").2.1 wBook (by decide)
      (by decide) (by decide)).1
  · exact ((upload_cover_rejects wDB 2 wPng "cafe").1 (by decide)).1

/-- Claim C6: a cover upload passing the type and extension checks whose
content exceeds 2 MiB (`max_size = 2097152` bytes) fails with BadRequest
(400); the error carries no new state, so cover_image is unmodified. -/
theorem upload_cover_size_limit (db : DB) (id : Int) (file : UploadFile)
    (hex : String) (book : Book)
    (hb : db.books.find? (fun b => b.id == id) = some book)
    (hct : file.content_type = "image/jpeg" ∨ file.content_type = "image/png")
    (hext : strLower (pathSuffix file.filename) = ".jpg" ∨
            strLower (pathSuffix file.filename) = ".jpeg" ∨
            strLower (pathSuffix file.filename) = ".png")
    (hlen : file.content.length > 2097152) :
    upload_book_cover db id file hex
      = .error (.badRequest "File to large. Max size is 2MB") ∧
    (ApiError.badRequest "File to large. Max size is 2MB").statusCode = 400 ∧
    max_size = 2097152 := by
  refine ⟨?_, rfl, rfl⟩
  apply upload_too_big db id file hex book hb
  · rcases hct with h | h <;> simp [h]
  · rcases hext with h | h | h <;> simp [h]
  · show file.content.length > max_size
    rw [show max_size = 2097152 from rfl]
    exact hlen

/-- Witness for C6: a 2097153-byte PNG upload is rejected as too large. -/
theorem upload_cover_size_limit_witness :
    upload_book_cover wDB 1 wBigPng "cafe"
      = .error (.badRequest "File to large. Max size is 2MB") := by
  refine (upload_cover_size_limit wDB 1 wBigPng "cafe" wBook (by decide)
    (by right; decide) (by right; right; decide) ?_).1
  show (List.replicate 2097153 (0 : UInt8)).length > 2097152
  rw [List.length_replicate]
  omega

/-- Claim C10: two implicit edge cases.  (a) The size check is strict: a
file of exactly `max_size` = 2 MiB passes it, so an otherwise valid upload
succeeds.  (b) An update whose author_id is absent or equal to the book's
current value, and whose category_id is absent or equal to the current
value, performs no existence check on either reference — it succeeds for
every store, in particular one from which the re-supplied author (or
category) row has been deleted. -/
theorem upload_exact_and_same_ref_update :
    (∀ db id file hex book,
       (db : DB).books.find? (fun b => b.id == id) = some book →
       (file : UploadFile).content_type = "image/jpeg" ∨ file.content_type = "image/png" →
       (strLower (pathSuffix file.filename) = ".jpg" ∨
        strLower (pathSuffix file.filename) = ".jpeg" ∨
        strLower (pathSuffix file.filename) = ".png") →
       file.content.length = max_size →
       ∃ db' b', upload_book_cover db id file (hex : String) = .ok (db', b')) ∧
    (∀ db id up book,
       (db : DB).books.find? (fun b => b.id == id) = some book →
       ((up : BookUpdate).author_id = none ∨ up.author_id = some book.author_id) →
       (up.category_id = none ∨ up.category_id = some book.category_id) →
       ∃ db' b', update_book db id up = .ok (db', b') ∧
         b'.author_id = book.author_id ∧ b'.category_id = book.category_id) := by
  constructor
  · intro db id file hex book hb hct hext hlen
    refine ⟨_, _, upload_ok db id file hex book hb ?_ ?_ ?_⟩
    · rcases hct with h | h <;> simp [h]
    · rcases hext with h | h | h <;> simp [h]
    · omega
  · intro db id up book hb hau hcu
    have haut : (applyScalarFields book up).author_id = book.author_id := by
      rw [applyScalarFields_eq]
    have hcat : (applyScalarFields book up).category_id = book.category_id := by
      rw [applyScalarFields_eq]
    have hca : checkAuthorField db (applyScalarFields book up) up
        = .ok (applyScalarFields book up) := by
      rcases hau with h | h
      · exact checkAuthorField_none db _ up h
      · exact checkAuthorField_same db _ up (by rw [haut]; exact h)
    have hcc : checkCategoryField db (applyScalarFields book up) up
        = .ok (applyScalarFields book up) := by
      rcases hcu with h | h
      · exact checkCategoryField_none db _ up h
      · exact checkCategoryField_same db _ up (by rw [hcat]; exact h)
    exact ⟨_, _, update_book_ok_eq db id up book _ _ hb hca hcc,
      haut, hcat⟩

/-- Witness for C10: the exactly-2-MiB upload succeeds on the fixture
store; the same-author patch succeeds on a store whose author table is
empty; and the same-category patch succeeds on a store whose category
table is empty. -/
theorem upload_exact_and_same_ref_update_witness :
    (∃ db' b', upload_book_cover wDB 1 wExactPng "cafe" = .ok (db', b')) ∧
    (∃ db' b', update_book wDBNoAuthors 1 wSameAuthorPatch = .ok (db', b') ∧
       b'.author_id = wBook.author_id ∧ b'.category_id = wBook.category_id) ∧
    (∃ db' b', update_book wDBNoCategories 1 wSameCategoryPatch = .ok (db', b') ∧
       b'.author_id = wBook.author_id ∧ b'.category_id = wBook.category_id) := by
  refine ⟨?_, ?_, ?_⟩
  · exact upload_exact_and_same_ref_update.1 wDB 1 wExactPng "cafe" wBook
      (by decide) (by right; decide) (by right; right; decide)
      (by show (List.replicate 2097152 (0 : UInt8)).length = max_size
          rw [List.length_replicate]
          rfl)
  · exact upload_exact_and_same_ref_update.2 wDBNoAuthors 1 wSameAuthorPatch wBook
      (by decide) (by right; decide) (by left; decide)
  · exact upload_exact_and_same_ref_update.2 wDBNoCategories 1 wSameCategoryPatch wBook
      (by decide) (by left; decide) (by right; decide)

/-- Claim C7 (amended): for a keyword free of the SQL LIKE wildcard
characters `%` and `_`, listing with only the keyword filter returns
exactly the stored books whose title or (non-NULL) description contains
the keyword as a case-insensitive substring, in storage order, restricted
to the skip/limit window (defaults 0/100).  (For keywords containing `%`
or `_` the code instead interprets them as SQL wildcards — see the
counterexample.) -/
theorem list_books_keyword_spec (db : DB) (skip limit : Nat) (kw : String)
    (hkw : noWildStr kw) :
    list_books db skip limit none none none (some kw) =
      ((db.books.filter (fun b => bookHasKeyword b kw)).drop skip).take limit := by
  have h : NoWild (lowerStr kw) := noWild_lowerStr kw hkw
  have hf : (fun b : Book => ilike b.title ("%" ++ kw ++ "%") ||
      (match b.description with
        | some d => ilike d ("%" ++ kw ++ "%")
        | none => false))
      = (fun b : Book => bookHasKeyword b kw) := by
    funext b
    cases hd : b.description with
    | none =>
      rw [ilike_substr b.title kw h]
      simp [bookHasKeyword, hd]
    | some d =>
      rw [ilike_substr b.title kw h]
      simp only [bookHasKeyword, hd]
      rw [ilike_substr d kw h]
  show ((db.books.filter (fun b : Book => ilike b.title ("%" ++ kw ++ "%") ||
          (match b.description with
            | some d => ilike d ("%" ++ kw ++ "%")
            | none => false))).drop skip).take limit
      = ((db.books.filter (fun b => bookHasKeyword b kw)).drop skip).take limit
  rw [hf]

/-- Witness for C7 (amended): keyword "dune" (wildcard-free) returns
exactly the fixture book whose title is "Dune". -/
theorem list_books_keyword_spec_witness :
    noWildStr "dune" ∧
    list_books wDB 0 100 none none none (some "dune") = [wBook] := by
  refine ⟨by unfold noWildStr; decide, ?_⟩
  rw [list_books_keyword_spec wDB 0 100 "dune" (by unfold noWildStr; decide)]
  decide

/-- Counterexample to C7 as stated: with keyword "a_c" the list result
contains the stored book titled "abc", although "a_c" occurs
case-insensitively in neither its title nor its (NULL) description — the
underscore acts as a SQL LIKE single-character wildcard. -/
theorem list_books_keyword_cex :
    list_books cexDB 0 100 none none none (some "a_c") = [cexBook] ∧
    bookHasKeyword cexBook "a_c" = false ∧
    containsCI cexBook.title "a_c" = false ∧
    cexBook.description = none := by
  refine ⟨by decide, by decide, by decide, rfl⟩
